import Mathlib

/-!
Verification of the tsffs client/module synchronization protocol core.

The development shallowly embeds `src/tsffs_module/src/module/mod.rs`
(the module run loop: `send_msg`, `recv_msg`, `reset_and_run`,
`on_simulation_stopped`, `on_magic_instruction`, `on_add_processor`,
`SimicsModule::init`) together with the client controller of
`src/confuse_module/src/client/mod.rs`.  Simulator side effects
(micro-checkpoint save/restore, resuming and breaking the
simulation, register and memory access, process exit, detector and
tracer notifications) are recorded in an explicit `World`: guest memory
and per-processor registers are live state, and every effect is also
appended to an event trace so that ordering properties can be stated.
The protocol state machine, the `Magic` decode, and the message
enumerations live outside the packaged sources, so they are modelled
from the specification where noted.
-/

namespace Tsffs

/-- Modelled from the spec: the `Magic` enumeration of
`tsffs_module::magic` (not under `src/`): a harness marker decoded from a
magic-instruction parameter, either `Start` (fuzzing entry reached) or
`Stop` with an exit code and an optional result-register payload that is
filled in at classification time. -/
inductive Magic where
  | Start (code : Nat)
  | Stop (code : Nat) (value : Option Nat)
deriving DecidableEq, Repr

/-- The `StopReason` tagged union of `tsffs_module::stops` (shapes as used
throughout `module/mod.rs`): why a run terminated.  Processor ids are
`Int` (they are `i32` in the source), fault and error descriptors are
collapsed to integers. -/
inductive StopReason where
  | Magic (magic : Magic) (processor_number : Int)
  | SimulationExit (processor_number : Int)
  | Crash (fault : Int) (processor_number : Int)
  | TimeOut
  | Error (descriptor : Nat) (processor_number : Int)
deriving DecidableEq, Repr

/-- Modelled from the spec: the campaign configuration carried by the
client's first message (log level, fault list, timeout). -/
structure InputConfig where
  logLevel : Nat
  timeout : Nat
  faults : List Int
deriving DecidableEq, Repr

/-- Modelled from the spec: the memory-layout / channel information echoed
back to the client after module initialization. -/
structure OutputConfig where
  mapInfo : Nat
deriving DecidableEq, Repr

/-- The `ClientMessage` tagged union (client to module).  The constructor
for the `Initialize` variant is named `InitializeMsg` here. -/
inductive ClientMessage where
  | InitializeMsg (cfg : InputConfig)
  | Run (input : List Nat)
  | Reset
  | Exit
deriving DecidableEq, Repr

/-- The `ModuleMessage` tagged union (module to client). -/
inductive ModuleMessage where
  | Initialized (cfg : OutputConfig)
  | Ready
  | Stopped (reason : StopReason)
deriving DecidableEq, Repr

/-- Modelled from the spec: the named protocol states of the symmetric
state machine (section 4.3 of the specification); the source's
`ModuleStateMachine` / client `State` are not under `src/`. -/
inductive ProtoState where
  | Uninitialized
  | HalfInitialized
  | Initialized
  | HalfReady
  | Ready
  | Running
  | Stopped
  | Done
deriving DecidableEq, Repr

/-- Modelled from the spec: the state machine's transition for consuming a
`ClientMessage` (section 4.3 transition table; `Exit` is legal from any
state).  `none` is a `ProtocolViolation`. -/
def consumeClient (s : ProtoState) (msg : ClientMessage) : Option ProtoState :=
  match msg, s with
  | .Exit, _ => some .Done
  | .InitializeMsg _, .Uninitialized => some .HalfInitialized
  | .Reset, .Initialized => some .HalfReady
  | .Reset, .Stopped => some .HalfReady
  | .Run _, .Ready => some .Running
  | _, _ => none

/-- Modelled from the spec: the state machine's transition for consuming a
`ModuleMessage` (section 4.3 transition table).  `none` is a
`ProtocolViolation`. -/
def consumeModule (s : ProtoState) (msg : ModuleMessage) : Option ProtoState :=
  match msg, s with
  | .Initialized _, .HalfInitialized => some .Initialized
  | .Ready, .HalfReady => some .Ready
  | .Stopped _, .Running => some .Stopped
  | _, _ => none

/-- One recorded simulator / subsystem side effect of the module code.
Each constructor corresponds to one call site in `module/mod.rs`:
checkpoint save/restore, future-state discard, message transmission,
guest memory and register writes, resuming or breaking the simulation,
detector/tracer notifications, and process exit. -/
inductive Event where
  | restoreCheckpoint (id : Nat)
  | discardFuture
  | saveCheckpoint (tag : String)
  | send (msg : ModuleMessage)
  | writeBytes (addr : Nat) (data : List Nat)
  | setReg (processor_number : Int) (reg : String) (value : Nat)
  | continueSim
  | breakSim (tag : String)
  | detectorOnReady
  | tracerOnReady
  | detectorOnRun
  | tracerOnRun
  | detectorOnStopped
  | tracerOnStopped
  | detectorPreFirstRun
  | tracerPreFirstRun
  | detectorOnExit
  | tracerOnExit
  | quit (code : Nat)
deriving DecidableEq, Repr

/-- Write a byte list into a memory function starting at `addr`
(the semantics of `Processor::write_bytes`). -/
def writeMem (mem : Nat → Nat) (addr : Nat) : List Nat → (Nat → Nat)
  | [] => mem
  | b :: bs => writeMem (fun a => if a = addr then b else mem a) (addr + 1) bs

/-- The simulator-side state visible to the module: guest memory,
per-processor general-purpose registers, and the ordered trace of
side effects performed so far. -/
structure World where
  memory : Nat → Nat
  regs : Int → String → Nat
  trace : List Event

/-- Append one side-effect event to the trace. -/
def World.emit (w : World) (e : Event) : World :=
  { w with trace := w.trace ++ [e] }

/-- Write bytes into guest memory (`Processor::write_bytes`), recording
the event. -/
def World.write_bytes (w : World) (addr : Nat) (data : List Nat) : World :=
  { w with
    memory := writeMem w.memory addr data
    trace := w.trace ++ [Event.writeBytes addr data] }

/-- Set a named register of a processor (`Processor::set_reg_value`),
recording the event. -/
def World.set_reg_value (w : World) (pn : Int) (r : String) (v : Nat) : World :=
  { w with
    regs := fun pn2 r2 => if pn2 = pn ∧ r2 = r then v else w.regs pn2 r2
    trace := w.trace ++ [Event.setReg pn r v] }

/-- The mutable module instance of `module/mod.rs` (`struct Module`).
`detector_stop_reason` embeds the `stop_reason` field of the `Detector`
subsystem, which `on_simulation_stopped` reads; the processor registry is
kept as the list of registered processor numbers (the `HashMap` keys),
with the per-processor register state living in `World.regs`. -/
structure Module where
  state : ProtoState
  processors : List Int
  stop_reason : Option StopReason
  detector_stop_reason : Option StopReason
  iterations : Nat
  buffer_address : Nat
  buffer_size : Nat
  last_start_processor_number : Int
deriving Repr

/-- The module instance produced by `SimicsModule::init`: fresh state
machine, empty processor registry, no pending stop reason, zero
iterations, zero buffer address/size, and last-start processor `-1`. -/
def initModule : Module :=
  { state := ProtoState.Uninitialized
    processors := []
    stop_reason := none
    detector_stop_reason := none
    iterations := 0
    buffer_address := 0
    buffer_size := 0
    last_start_processor_number := -1 }

/-- Result of a fallible module operation: success, an `anyhow` error
(`bail!` / failed `?`), or process termination via `quit(code)` (which in
the source never returns). -/
inductive Outcome (α : Type) where
  | ok (value : α)
  | err (msg : String)
  | exited (code : Nat)
deriving DecidableEq, Repr

/-- Result of `Module::send_msg`: outcome plus the updated module and
world. -/
structure SendResult where
  out : Outcome Unit
  module : Module
  world : World

/-- Result of a module operation that may also consume inbound client
messages: outcome, updated module and world, and the remaining inbound
queue. -/
structure StepResult (α : Type) where
  out : Outcome α
  module : Module
  world : World
  queue : List ClientMessage

/-- `Module::send_msg` (`module/mod.rs` lines 126-133): apply the state
machine's transition for the outgoing message first; only when it is
accepted is the message actually sent on the transport. -/
def sendMsg (m : Module) (w : World) (msg : ModuleMessage) : SendResult :=
  match consumeModule m.state msg with
  | none => ⟨Outcome.err "Error consuming sent message", m, w⟩
  | some s => ⟨Outcome.ok (), { m with state := s }, w.emit (Event.send msg)⟩

/-- Modelled from the spec: the client controller's `send_msg`
(`ConfuseClient` trait, not under `src/`), used by every blocking call of
`src/confuse_module/src/client/mod.rs`: validate the send transition
against the client's state machine before transmitting; on rejection fail
locally, leaving the transmit log untouched. -/
def clientSendMsg (state : ProtoState) (sent : List ClientMessage)
    (msg : ClientMessage) : Outcome Unit × ProtoState × List ClientMessage :=
  match consumeClient state msg with
  | none => (Outcome.err "Error consuming sent message", state, sent)
  | some s => (Outcome.ok (), s, sent ++ [msg])

/-- `Module::recv_msg` (`module/mod.rs` lines 136-154): receive the next
inbound message; on `Exit`, tear down the detector and tracer and
`quit(0)` immediately, with no state-machine transition; otherwise apply
the receive transition before returning the message. -/
def recvMsg (m : Module) (w : World) (q : List ClientMessage) :
    StepResult ClientMessage :=
  match q with
  | [] => ⟨Outcome.err "Channel disconnected", m, w, []⟩
  | msg :: rest =>
    match msg with
    | ClientMessage.Exit =>
      let w := ((w.emit Event.detectorOnExit).emit Event.tracerOnExit).emit
        (Event.quit 0)
      ⟨Outcome.exited 0, m, w, rest⟩
    | _ =>
      match consumeClient m.state msg with
      | none => ⟨Outcome.err "Error consuming received message", m, w, rest⟩
      | some s => ⟨Outcome.ok msg, { m with state := s }, w, rest⟩

/-- `Module::reset_and_run` (`module/mod.rs` lines 156-197): receive
`Reset`; restore micro-checkpoint 0 and discard future state; notify the
detector and tracer; send `Ready`; receive `Run(input)`; truncate the
input to `buffer_size`; look up the processor, write the truncated input
at `buffer_address` and store its length in register `rdi`; clear the
pending stop reason and resume the simulation. -/
def resetAndRun (m : Module) (w : World) (q : List ClientMessage)
    (processor_number : Int) : StepResult Unit :=
  match recvMsg m w q with
  | ⟨Outcome.err e, m1, w1, q1⟩ => ⟨Outcome.err e, m1, w1, q1⟩
  | ⟨Outcome.exited c, m1, w1, q1⟩ => ⟨Outcome.exited c, m1, w1, q1⟩
  | ⟨Outcome.ok msg, m1, w1, q1⟩ =>
    match msg with
    | ClientMessage.Reset =>
      let w1 := (((w1.emit (Event.restoreCheckpoint 0)).emit
        Event.discardFuture).emit Event.detectorOnReady).emit
        Event.tracerOnReady
      match sendMsg m1 w1 ModuleMessage.Ready with
      | ⟨Outcome.err e, m2, w2⟩ => ⟨Outcome.err e, m2, w2, q1⟩
      | ⟨Outcome.exited c, m2, w2⟩ => ⟨Outcome.exited c, m2, w2, q1⟩
      | ⟨Outcome.ok _, m2, w2⟩ =>
        match recvMsg m2 w2 q1 with
        | ⟨Outcome.err e, m3, w3, q2⟩ => ⟨Outcome.err e, m3, w3, q2⟩
        | ⟨Outcome.exited c, m3, w3, q2⟩ => ⟨Outcome.exited c, m3, w3, q2⟩
        | ⟨Outcome.ok msg2, m3, w3, q2⟩ =>
          match msg2 with
          | ClientMessage.Run input =>
            let input := input.take m3.buffer_size
            if m3.processors.contains processor_number then
              let w4 := (w3.write_bytes m3.buffer_address input).set_reg_value
                processor_number "rdi" input.length
              ⟨Outcome.ok (), { m3 with stop_reason := none },
                w4.emit Event.continueSim, q2⟩
            else
              ⟨Outcome.err "No processor number", m3, w3, q2⟩
          | _ => ⟨Outcome.err "Unexpected message. Expected Run.", m3, w3, q2⟩
    | _ => ⟨Outcome.err "Unexpected message. Expected Reset.", m1, w1, q1⟩

/-- The stop-reason resolution of `Module::on_simulation_stopped`
(`module/mod.rs` lines 224-231): a detector-supplied reason takes
priority over the module-local pending one. -/
def effectiveReason (m : Module) : Option StopReason :=
  match m.detector_stop_reason with
  | some r => some r
  | none => m.stop_reason

/-- `Module::on_simulation_stopped` (`module/mod.rs` lines 211-318):
resolve the stop reason (bailing out when there is none), notify the
detector and tracer, then branch: first `Magic::Start` captures the
buffer address/size from `rsi`/`rdi`, saves the `origin`
micro-checkpoint, runs the pre-first-run hooks and enters
`reset_and_run`; later `Magic::Start` just bumps the iteration count,
records the start processor, clears the pending reason and resumes;
`Magic::Stop` is enriched with the `rsi` register value, reported as
`Stopped`, and followed by `reset_and_run`; `SimulationExit`, `Crash`
and `TimeOut` are reported and followed by `reset_and_run`; `Error`
tears down the subsystems and exits the process with status 1. -/
def onSimulationStopped (m : Module) (w : World) (q : List ClientMessage) :
    StepResult Unit :=
  match effectiveReason m with
  | none =>
    ⟨Outcome.err "Stopped without a reason - this should be impossible", m, w, q⟩
  | some reason =>
    let w := (w.emit Event.detectorOnStopped).emit Event.tracerOnStopped
    match reason with
    | StopReason.Magic magic processor_number =>
      match magic with
      | Magic.Start _ =>
        if m.iterations = 0 then
          let m := { m with iterations := m.iterations + 1 }
          if m.processors.contains processor_number then
            let m := { m with
              buffer_address := w.regs processor_number "rsi"
              buffer_size := w.regs processor_number "rdi" }
            let w := ((w.emit (Event.saveCheckpoint "origin")).emit
              Event.detectorPreFirstRun).emit Event.tracerPreFirstRun
            resetAndRun m w q processor_number
          else
            ⟨Outcome.err "No processor number", m, w, q⟩
        else
          let m := { m with
            iterations := m.iterations + 1
            stop_reason := none
            last_start_processor_number := processor_number }
          let w := (w.emit Event.detectorOnRun).emit Event.tracerOnRun
          ⟨Outcome.ok (), m, w.emit Event.continueSim, q⟩
      | Magic.Stop code _ =>
        if m.processors.contains processor_number then
          let stop_value := w.regs processor_number "rsi"
          match sendMsg m w (ModuleMessage.Stopped (StopReason.Magic
              (Magic.Stop code (some stop_value)) processor_number)) with
          | ⟨Outcome.err e, m1, w1⟩ => ⟨Outcome.err e, m1, w1, q⟩
          | ⟨Outcome.exited c, m1, w1⟩ => ⟨Outcome.exited c, m1, w1, q⟩
          | ⟨Outcome.ok _, m1, w1⟩ => resetAndRun m1 w1 q processor_number
        else
          ⟨Outcome.err "No processor number", m, w, q⟩
    | StopReason.SimulationExit processor_number =>
      match sendMsg m w (ModuleMessage.Stopped
          (StopReason.SimulationExit processor_number)) with
      | ⟨Outcome.err e, m1, w1⟩ => ⟨Outcome.err e, m1, w1, q⟩
      | ⟨Outcome.exited c, m1, w1⟩ => ⟨Outcome.exited c, m1, w1, q⟩
      | ⟨Outcome.ok _, m1, w1⟩ => resetAndRun m1 w1 q processor_number
    | StopReason.Crash fault processor_number =>
      match sendMsg m w (ModuleMessage.Stopped
          (StopReason.Crash fault processor_number)) with
      | ⟨Outcome.err e, m1, w1⟩ => ⟨Outcome.err e, m1, w1, q⟩
      | ⟨Outcome.exited c, m1, w1⟩ => ⟨Outcome.exited c, m1, w1, q⟩
      | ⟨Outcome.ok _, m1, w1⟩ => resetAndRun m1 w1 q processor_number
    | StopReason.TimeOut =>
      match sendMsg m w (ModuleMessage.Stopped StopReason.TimeOut) with
      | ⟨Outcome.err e, m1, w1⟩ => ⟨Outcome.err e, m1, w1, q⟩
      | ⟨Outcome.exited c, m1, w1⟩ => ⟨Outcome.exited c, m1, w1, q⟩
      | ⟨Outcome.ok _, m1, w1⟩ =>
        resetAndRun m1 w1 q m1.last_start_processor_number
    | StopReason.Error _ _ =>
      let w := (w.emit Event.detectorOnExit).emit Event.tracerOnExit
      ⟨Outcome.exited 1, m, w.emit (Event.quit 1), q⟩

/-- Modelled from the spec: the decode of a magic-instruction parameter
into a `Magic` value (`Magic::try_from`, not under `src/`); a
target-supplied integer code either decodes to `Start` or `Stop` or is
not a recognized magic code at all. -/
def magicTryFrom (parameter : Int) : Option Magic :=
  if parameter = 1 then some (Magic.Start 1)
  else if parameter = 2 then some (Magic.Stop 2 none)
  else none

/-- `Module::on_magic_instruction` (`module/mod.rs` lines 321-337): when
the parameter decodes to a `Magic` value, record it (with the triggering
processor's number) as the pending stop reason and request a simulation
break; otherwise do nothing and succeed. -/
def onMagicInstruction (m : Module) (w : World) (processor_number : Int)
    (parameter : Int) : Outcome Unit × Module × World :=
  match magicTryFrom parameter with
  | some magic =>
    (Outcome.ok (),
     { m with stop_reason := some (StopReason.Magic magic processor_number) },
     w.emit (Event.breakSim "on_magic_instruction"))
  | none => (Outcome.ok (), m, w)

/-- `Module::on_add_processor` (`module/mod.rs` lines 348-365): register
a processor number in the registry (a `HashMap` insert: re-adding an
existing number leaves the key set unchanged). -/
def onAddProcessor (m : Module) (processor_number : Int) : Module :=
  { m with processors :=
      if m.processors.contains processor_number then m.processors
      else m.processors ++ [processor_number] }

/-- Whether an event is a micro-checkpoint save. -/
def isSave (e : Event) : Bool :=
  match e with
  | Event.saveCheckpoint _ => true
  | _ => false

/-- Whether an event is a micro-checkpoint restore. -/
def isRestore (e : Event) : Bool :=
  match e with
  | Event.restoreCheckpoint _ => true
  | _ => false

/-- Number of micro-checkpoint saves recorded in a trace. -/
def countSaves (t : List Event) : Nat :=
  t.countP fun e => isSave e

/-- Number of micro-checkpoint restores recorded in a trace. -/
def countRestores (t : List Event) : Nat :=
  t.countP fun e => isRestore e


/-- A concrete starting world for witness instances: zeroed memory and
registers, empty trace. -/
def testWorld : World :=
  { memory := fun _ => 0, regs := fun _ _ => 0, trace := [] }

/-- A concrete module mid-session: protocol state `Stopped`, processor 0
registered, a 64-byte buffer at address 4096. -/
def moduleReadyToReset : Module :=
  { state := ProtoState.Stopped
    processors := [0]
    stop_reason := none
    detector_stop_reason := none
    iterations := 1
    buffer_address := 4096
    buffer_size := 64
    last_start_processor_number := 0 }

/-- A concrete module that has just hit its first `Magic::Start`. -/
def moduleFirstStart : Module :=
  { state := ProtoState.Running
    processors := [0]
    stop_reason := some (StopReason.Magic (Magic.Start 1) 0)
    detector_stop_reason := none
    iterations := 0
    buffer_address := 0
    buffer_size := 0
    last_start_processor_number := -1 }

/-- A concrete module hitting a later `Magic::Start` (third iteration). -/
def moduleLaterStart : Module :=
  { moduleFirstStart with iterations := 3 }

/-- A concrete module whose run just timed out. -/
def moduleTimedOut : Module :=
  { moduleReadyToReset with
    state := ProtoState.Running
    stop_reason := some StopReason.TimeOut }

/-- A concrete module whose run just hit `Magic::Stop`. -/
def moduleMagicStop : Module :=
  { moduleReadyToReset with
    state := ProtoState.Running
    stop_reason := some (StopReason.Magic (Magic.Stop 4 none) 0) }

/-- A concrete module whose run stopped with an `Error` reason. -/
def moduleErrored : Module :=
  { moduleReadyToReset with
    state := ProtoState.Running
    stop_reason := some (StopReason.Error 7 0) }

/-- A concrete module whose detector supplied a `Crash` reason. -/
def moduleDetectorCrash : Module :=
  { moduleReadyToReset with
    state := ProtoState.Running
    stop_reason := some StopReason.TimeOut
    detector_stop_reason := some (StopReason.Crash 13 0) }

/-- A concrete module with no stop reason at all. -/
def moduleNoReason : Module :=
  { moduleReadyToReset with state := ProtoState.Running }

/-- A concrete module with an empty processor registry. -/
def moduleNoProcessors : Module :=
  { moduleReadyToReset with processors := [] }

/-- A 128-byte test input (each byte 65), twice the negotiated buffer. -/
def bigInput : List Nat := List.replicate 128 65

set_option maxRecDepth 8000

theorem writeMem_frame (data : List Nat) (mem : Nat → Nat) (addr a : Nat)
    (h : ∀ i, i < data.length → a ≠ addr + i) :
    writeMem mem addr data a = mem a := by
  induction data generalizing mem addr with
  | nil => rfl
  | cons b bs ih =>
    rw [writeMem]
    rw [ih]
    · have ha : a ≠ addr := by
        have := h 0 (by simp)
        simpa using this
      simp [ha]
    · intro i hi
      have := h (i + 1) (by simpa using Nat.succ_lt_succ hi)
      omega

theorem writeMem_get (data : List Nat) (mem : Nat → Nat) (addr i : Nat)
    (h : i < data.length) :
    writeMem mem addr data (addr + i) = data.getD i 0 := by
  induction data generalizing mem addr i with
  | nil => simp at h
  | cons b bs ih =>
    match i with
    | 0 =>
      rw [writeMem]
      rw [writeMem_frame]
      · simp
      · intro j _
        omega
    | i + 1 =>
      rw [writeMem]
      have : addr + (i + 1) = (addr + 1) + i := by omega
      rw [this, ih _ _ _ (by simpa using Nat.lt_of_succ_lt_succ h)]
      simp

theorem take_getD (l : List Nat) (n i : Nat) (h : i < n) :
    (l.take n).getD i 0 = l.getD i 0 := by
  induction l generalizing n i with
  | nil => simp
  | cons b bs ih =>
    match n, i with
    | n + 1, 0 => simp
    | n + 1, i + 1 =>
      simp only [List.take_cons, List.getD_cons_succ]
      exact ih n i (Nat.lt_of_succ_lt_succ h)

theorem resetAndRun_happy (m : Module) (w : World) (input : List Nat)
    (rest : List ClientMessage) (pn : Int)
    (hstate : m.state = ProtoState.Stopped)
    (hpn : m.processors.contains pn = true) :
    resetAndRun m w (ClientMessage.Reset :: ClientMessage.Run input :: rest) pn =
      ⟨Outcome.ok (),
       { m with state := ProtoState.Running, stop_reason := none },
       (((((((w.emit (Event.restoreCheckpoint 0)).emit Event.discardFuture).emit
         Event.detectorOnReady).emit Event.tracerOnReady).emit
         (Event.send ModuleMessage.Ready)).write_bytes m.buffer_address
         (input.take m.buffer_size)).set_reg_value pn "rdi"
         (input.take m.buffer_size).length).emit Event.continueSim,
       rest⟩ := by
  simp [resetAndRun, recvMsg, sendMsg, consumeClient, consumeModule, hstate, hpn]
  simpa using hpn

theorem countSaves_nil : countSaves [] = 0 := rfl

theorem countSaves_append (t1 t2 : List Event) :
    countSaves (t1 ++ t2) = countSaves t1 + countSaves t2 := by
  simp [countSaves, List.countP_append]

theorem countSaves_cons (e : Event) (t : List Event) :
    countSaves (e :: t) = countSaves t + (if isSave e then 1 else 0) := by
  simp [countSaves, List.countP_cons]

theorem countRestores_nil : countRestores [] = 0 := rfl

theorem countRestores_append (t1 t2 : List Event) :
    countRestores (t1 ++ t2) = countRestores t1 + countRestores t2 := by
  simp [countRestores, List.countP_append]

theorem countRestores_cons (e : Event) (t : List Event) :
    countRestores (e :: t) = countRestores t + (if isRestore e then 1 else 0) := by
  simp [countRestores, List.countP_cons]

theorem sendMsg_effects (m : Module) (w : World) (msg : ModuleMessage) :
    ∃ t, (sendMsg m w msg).world.trace = w.trace ++ t ∧ countSaves t = 0 ∧
      (sendMsg m w msg).module.iterations = m.iterations ∧
      (sendMsg m w msg).module.buffer_address = m.buffer_address ∧
      (sendMsg m w msg).module.buffer_size = m.buffer_size := by
  unfold sendMsg
  cases h : consumeModule m.state msg with
  | none => exact ⟨[], by simp [countSaves]⟩
  | some s =>
    exact ⟨[Event.send msg],
      by simp [World.emit, countSaves, List.countP_cons, isSave]⟩

theorem recvMsg_effects (m : Module) (w : World) (q : List ClientMessage) :
    ∃ t, (recvMsg m w q).world.trace = w.trace ++ t ∧ countSaves t = 0 ∧
      (recvMsg m w q).module.iterations = m.iterations ∧
      (recvMsg m w q).module.buffer_address = m.buffer_address ∧
      (recvMsg m w q).module.buffer_size = m.buffer_size := by
  unfold recvMsg
  rcases q with _ | ⟨msg, rest⟩
  · exact ⟨[], by simp [countSaves]⟩
  · cases msg with
    | Exit =>
      exact ⟨[Event.detectorOnExit, Event.tracerOnExit, Event.quit 0],
        by simp [World.emit, countSaves, List.countP_cons, isSave]⟩
    | InitializeMsg cfg =>
      cases h : consumeClient m.state (ClientMessage.InitializeMsg cfg) with
      | none => exact ⟨[], by simp [h, countSaves]⟩
      | some s => exact ⟨[], by simp [h, countSaves]⟩
    | Run input =>
      cases h : consumeClient m.state (ClientMessage.Run input) with
      | none => exact ⟨[], by simp [h, countSaves]⟩
      | some s => exact ⟨[], by simp [h, countSaves]⟩
    | Reset =>
      cases h : consumeClient m.state ClientMessage.Reset with
      | none => exact ⟨[], by simp [h, countSaves]⟩
      | some s => exact ⟨[], by simp [h, countSaves]⟩

theorem resetAndRun_effects (m : Module) (w : World) (q : List ClientMessage)
    (pn : Int) :
    countSaves (resetAndRun m w q pn).world.trace = countSaves w.trace ∧
    (resetAndRun m w q pn).module.iterations = m.iterations ∧
    (resetAndRun m w q pn).module.buffer_address = m.buffer_address ∧
    (resetAndRun m w q pn).module.buffer_size = m.buffer_size := by
  obtain ⟨t1, ht1, hs1, hi1, ha1, hb1⟩ := recvMsg_effects m w q
  rcases hrec : recvMsg m w q with ⟨out1, m1, w1, q1⟩
  rw [hrec] at ht1 hi1 ha1 hb1
  simp only at ht1 hi1 ha1 hb1
  have hw1 : countSaves w1.trace = countSaves w.trace := by
    rw [ht1, countSaves_append, hs1]
    omega
  unfold resetAndRun
  rw [hrec]
  cases out1 with
  | err e => simp [hw1, hi1, ha1, hb1]
  | exited c => simp [hw1, hi1, ha1, hb1]
  | ok msg =>
    cases msg with
    | InitializeMsg cfg => simp [hw1, hi1, ha1, hb1]
    | Run input => simp [hw1, hi1, ha1, hb1]
    | Exit => simp [hw1, hi1, ha1, hb1]
    | Reset =>
      simp only
      obtain ⟨t2, ht2, hs2, hi2, ha2, hb2⟩ := sendMsg_effects m1
        ((((w1.emit (Event.restoreCheckpoint 0)).emit
          Event.discardFuture).emit Event.detectorOnReady).emit
          Event.tracerOnReady) ModuleMessage.Ready
      rcases hsend : sendMsg m1
        ((((w1.emit (Event.restoreCheckpoint 0)).emit
          Event.discardFuture).emit Event.detectorOnReady).emit
          Event.tracerOnReady) ModuleMessage.Ready with ⟨out2, m2, w2⟩
      rw [hsend] at ht2 hi2 ha2 hb2
      simp only at ht2 hi2 ha2 hb2
      have hw2 : countSaves w2.trace = countSaves w.trace := by
        rw [ht2]
        simp only [World.emit]
        simp [countSaves_append, countSaves_cons, countSaves_nil, isSave,
          hs2, hw1]
      cases out2 with
      | err e => simp [hw2, hi1, ha1, hb1, hi2, ha2, hb2]
      | exited c => simp [hw2, hi1, ha1, hb1, hi2, ha2, hb2]
      | ok u =>
        simp only
        obtain ⟨t3, ht3, hs3, hi3, ha3, hb3⟩ := recvMsg_effects m2 w2 q1
        rcases hrec2 : recvMsg m2 w2 q1 with ⟨out3, m3, w3, q2⟩
        rw [hrec2] at ht3 hi3 ha3 hb3
        simp only at ht3 hi3 ha3 hb3
        have hw3 : countSaves w3.trace = countSaves w.trace := by
          rw [ht3, countSaves_append, hs3, hw2]
          omega
        have hi13 : m3.iterations = m.iterations := by
          rw [hi3, hi2, hi1]
        have ha13 : m3.buffer_address = m.buffer_address := by
          rw [ha3, ha2, ha1]
        have hb13 : m3.buffer_size = m.buffer_size := by
          rw [hb3, hb2, hb1]
        cases out3 with
        | err e => simp [hw3, hi13, ha13, hb13]
        | exited c => simp [hw3, hi13, ha13, hb13]
        | ok msg2 =>
          cases msg2 with
          | InitializeMsg cfg => simp [hw3, hi13, ha13, hb13]
          | Exit => simp [hw3, hi13, ha13, hb13]
          | Reset => simp [hw3, hi13, ha13, hb13]
          | Run input =>
            simp only
            by_cases hc : pn ∈ m3.processors
            · simp [hc, World.write_bytes, World.set_reg_value, World.emit,
                countSaves_append, countSaves_cons, countSaves_nil, isSave,
                hw3, hi13, ha13, hb13]
            · simp [hc, hw3, hi13, ha13, hb13]

/-- C1: for every negotiated buffer size and input, the run step of
`reset_and_run` writes into the target's buffer exactly the first
`min (length input) buffer_size` bytes of the input, leaves every address
below the buffer and at or beyond offset `buffer_size` (and beyond the
written prefix) unchanged, and sets the length register `rdi` to the
truncated length; oversized input is truncated silently, not an error. -/
theorem claim_C1_run_truncates (m : Module) (w : World) (input : List Nat)
    (rest : List ClientMessage) (pn : Int)
    (hstate : m.state = ProtoState.Stopped)
    (hpn : m.processors.contains pn = true) :
    (resetAndRun m w (ClientMessage.Reset :: ClientMessage.Run input :: rest)
        pn).out = Outcome.ok () ∧
    (∀ i, i < min input.length m.buffer_size →
      (resetAndRun m w (ClientMessage.Reset :: ClientMessage.Run input :: rest)
        pn).world.memory (m.buffer_address + i) = input.getD i 0) ∧
    (∀ i, min input.length m.buffer_size ≤ i →
      (resetAndRun m w (ClientMessage.Reset :: ClientMessage.Run input :: rest)
        pn).world.memory (m.buffer_address + i) =
        w.memory (m.buffer_address + i)) ∧
    (∀ a, a < m.buffer_address →
      (resetAndRun m w (ClientMessage.Reset :: ClientMessage.Run input :: rest)
        pn).world.memory a = w.memory a) ∧
    (∀ i, m.buffer_size ≤ i →
      (resetAndRun m w (ClientMessage.Reset :: ClientMessage.Run input :: rest)
        pn).world.memory (m.buffer_address + i) =
        w.memory (m.buffer_address + i)) ∧
    (resetAndRun m w (ClientMessage.Reset :: ClientMessage.Run input :: rest)
        pn).world.regs pn "rdi" = min input.length m.buffer_size := by
  rw [resetAndRun_happy m w input rest pn hstate hpn]
  simp only [World.emit, World.write_bytes, World.set_reg_value]
  refine ⟨trivial, ?_, ?_, ?_, ?_, ?_⟩
  · intro i hi
    rw [writeMem_get _ _ _ _ (by simp; omega)]
    exact take_getD input m.buffer_size i (by omega)
  · intro i hi
    rw [writeMem_frame _ _ _ _ ?_]
    intro j hj
    simp at hj
    omega
  · intro a ha
    rw [writeMem_frame _ _ _ _ ?_]
    intro j hj
    omega
  · intro i hi
    rw [writeMem_frame _ _ _ _ ?_]
    intro j hj
    simp at hj
    omega
  · simp [List.length_take, Nat.min_comm]

/-- C2: the first `Magic::Start` handled by `on_simulation_stopped`
(iteration counter zero) triggers exactly one snapshot save, after
capturing buffer address and size from the `rsi`/`rdi` registers, and
leaves the iteration counter at 1; any later `Magic::Start` (counter
nonzero) saves zero snapshots and just resumes execution. -/
theorem claim_C2_first_start_snapshots (m : Module) (w : World)
    (q : List ClientMessage) (pn : Int) (k : Nat)
    (hreason : effectiveReason m = some (StopReason.Magic (Magic.Start k) pn)) :
    (m.iterations = 0 → pn ∈ m.processors →
      countSaves (onSimulationStopped m w q).world.trace
          = countSaves w.trace + 1 ∧
      (onSimulationStopped m w q).module.iterations = 1 ∧
      (onSimulationStopped m w q).module.buffer_address = w.regs pn "rsi" ∧
      (onSimulationStopped m w q).module.buffer_size = w.regs pn "rdi") ∧
    (m.iterations ≠ 0 →
      countSaves (onSimulationStopped m w q).world.trace = countSaves w.trace ∧
      (onSimulationStopped m w q).world.trace
          = w.trace ++ [Event.detectorOnStopped, Event.tracerOnStopped,
              Event.detectorOnRun, Event.tracerOnRun, Event.continueSim] ∧
      (onSimulationStopped m w q).out = Outcome.ok () ∧
      (onSimulationStopped m w q).module.iterations = m.iterations + 1) := by
  constructor
  · intro h0 hpn
    have hred : onSimulationStopped m w q =
        resetAndRun
          { m with
            iterations := 1
            buffer_address := w.regs pn "rsi"
            buffer_size := w.regs pn "rdi" }
          { w with trace := w.trace ++ [Event.detectorOnStopped,
              Event.tracerOnStopped, Event.saveCheckpoint "origin",
              Event.detectorPreFirstRun, Event.tracerPreFirstRun] }
          q pn := by
      simp [onSimulationStopped, hreason, h0, hpn, World.emit]
    rw [hred]
    obtain ⟨hs, hi, ha, hb⟩ := resetAndRun_effects
      { m with
        iterations := 1
        buffer_address := w.regs pn "rsi"
        buffer_size := w.regs pn "rdi" }
      { w with trace := w.trace ++ [Event.detectorOnStopped,
          Event.tracerOnStopped, Event.saveCheckpoint "origin",
          Event.detectorPreFirstRun, Event.tracerPreFirstRun] }
      q pn
    refine ⟨?_, by rw [hi], by rw [ha], by rw [hb]⟩
    rw [hs]
    simp [countSaves_append, countSaves_cons, countSaves_nil, isSave]
  · intro hne
    simp [onSimulationStopped, hreason, hne, World.emit, countSaves_append,
      countSaves_cons, countSaves_nil, isSave]

/-- C3: the effective stop reason is the detector-supplied reason when
present, otherwise the module-local pending reason; when neither is
present `on_simulation_stopped` returns a fatal error and changes
nothing. -/
theorem claim_C3_stop_reason_resolution (m : Module) (w : World)
    (q : List ClientMessage) (d : StopReason) :
    (m.detector_stop_reason = some d → effectiveReason m = some d) ∧
    (m.detector_stop_reason = none → effectiveReason m = m.stop_reason) ∧
    (m.detector_stop_reason = none → m.stop_reason = none →
      (onSimulationStopped m w q).out
          = Outcome.err "Stopped without a reason - this should be impossible" ∧
      (onSimulationStopped m w q).module = m ∧
      (onSimulationStopped m w q).world = w ∧
      (onSimulationStopped m w q).queue = q) := by
  refine ⟨?_, ?_, ?_⟩
  · intro h
    simp [effectiveReason, h]
  · intro h
    simp [effectiveReason, h]
  · intro h1 h2
    have hnone : effectiveReason m = none := by simp [effectiveReason, h1, h2]
    simp [onSimulationStopped, hnone]

/-- C4: on a `TimeOut` stop the module sends `Stopped(TimeOut)` and then
immediately proceeds into the reset/run cycle: the client's next `Reset`
is answered by exactly one baseline-snapshot restore followed by `Ready`,
and execution is resumed, with no second restore needed. -/
theorem claim_C4_timeout_reported_then_reset (m : Module) (w : World)
    (input : List Nat) (rest : List ClientMessage) (pn : Int)
    (hreason : effectiveReason m = some StopReason.TimeOut)
    (hstate : m.state = ProtoState.Running)
    (hlast : m.last_start_processor_number = pn)
    (hpn : pn ∈ m.processors) :
    (onSimulationStopped m w
        (ClientMessage.Reset :: ClientMessage.Run input :: rest)).out
        = Outcome.ok () ∧
    (onSimulationStopped m w
        (ClientMessage.Reset :: ClientMessage.Run input :: rest)).world.trace
        = w.trace ++ [Event.detectorOnStopped, Event.tracerOnStopped,
            Event.send (ModuleMessage.Stopped StopReason.TimeOut),
            Event.restoreCheckpoint 0, Event.discardFuture,
            Event.detectorOnReady, Event.tracerOnReady,
            Event.send ModuleMessage.Ready,
            Event.writeBytes m.buffer_address (input.take m.buffer_size),
            Event.setReg pn "rdi" (input.take m.buffer_size).length,
            Event.continueSim] ∧
    countRestores (onSimulationStopped m w
        (ClientMessage.Reset :: ClientMessage.Run input :: rest)).world.trace
        = countRestores w.trace + 1 := by
  have hred : onSimulationStopped m w
      (ClientMessage.Reset :: ClientMessage.Run input :: rest) =
      resetAndRun { m with state := ProtoState.Stopped }
        (((w.emit Event.detectorOnStopped).emit Event.tracerOnStopped).emit
          (Event.send (ModuleMessage.Stopped StopReason.TimeOut)))
        (ClientMessage.Reset :: ClientMessage.Run input :: rest) pn := by
    simp [onSimulationStopped, hreason, sendMsg, consumeModule, hstate, hlast]
  rw [hred]
  rw [resetAndRun_happy _ _ input rest pn rfl (by simpa using hpn)]
  refine ⟨rfl, ?_, ?_⟩
  · simp [World.emit, World.write_bytes, World.set_reg_value]
  · simp [World.emit, World.write_bytes, World.set_reg_value,
      countRestores_append, countRestores_cons, countRestores_nil, isRestore]

/-- C5: on an `Error` stop reason the module never sends any message to
the client (in particular no `Stopped(Error(..))`); it tears down the
detector and tracer and exits the process with status 1, starting no
further fuzzing iteration (no restore, no resume). -/
theorem claim_C5_error_teardown_exit (m : Module) (w : World)
    (q : List ClientMessage) (e : Nat) (pn : Int)
    (hreason : effectiveReason m = some (StopReason.Error e pn)) :
    (onSimulationStopped m w q).out = Outcome.exited 1 ∧
    (onSimulationStopped m w q).world.trace
        = w.trace ++ [Event.detectorOnStopped, Event.tracerOnStopped,
            Event.detectorOnExit, Event.tracerOnExit, Event.quit 1] ∧
    (∀ msg, Event.send msg ∈ (onSimulationStopped m w q).world.trace →
      Event.send msg ∈ w.trace) ∧
    (Event.continueSim ∈ (onSimulationStopped m w q).world.trace →
      Event.continueSim ∈ w.trace) ∧
    countRestores (onSimulationStopped m w q).world.trace
        = countRestores w.trace := by
  refine ⟨?_, ?_, ?_, ?_, ?_⟩
  · simp [onSimulationStopped, hreason]
  · simp [onSimulationStopped, hreason, World.emit]
  · intro msg hmem
    simp [onSimulationStopped, hreason, World.emit] at hmem
    exact hmem
  · intro hmem
    simp [onSimulationStopped, hreason, World.emit] at hmem
    exact hmem
  · simp [onSimulationStopped, hreason, World.emit, countRestores_append,
      countRestores_cons, countRestores_nil, isRestore]

/-- C6: whenever `recv_msg` receives `ClientMessage::Exit`, in any
protocol state, it tears down the detector and tracer and terminates the
process with exit status 0, leaving the module (including its state
machine) untouched. -/
theorem claim_C6_exit_terminates (m : Module) (w : World)
    (rest : List ClientMessage) :
    (recvMsg m w (ClientMessage.Exit :: rest)).out = Outcome.exited 0 ∧
    (recvMsg m w (ClientMessage.Exit :: rest)).module = m ∧
    (recvMsg m w (ClientMessage.Exit :: rest)).world.trace
        = w.trace ++ [Event.detectorOnExit, Event.tracerOnExit, Event.quit 0] ∧
    (recvMsg m w (ClientMessage.Exit :: rest)).queue = rest := by
  refine ⟨rfl, rfl, ?_, rfl⟩
  simp [recvMsg, World.emit]

/-- C7: every outgoing message first goes through the state machine's
send transition, on both the module side (`send_msg`) and the client side
(`clientSendMsg`); only on success is the message transmitted, and a
rejected transition fails locally with nothing sent. -/
theorem claim_C7_send_gated_by_state_machine (m : Module) (w : World)
    (msg : ModuleMessage) (c : ProtoState) (sent : List ClientMessage)
    (cmsg : ClientMessage) :
    (consumeModule m.state msg = none →
      (sendMsg m w msg).out = Outcome.err "Error consuming sent message" ∧
      (sendMsg m w msg).world = w ∧
      (sendMsg m w msg).module = m) ∧
    (∀ s, consumeModule m.state msg = some s →
      sendMsg m w msg
          = ⟨Outcome.ok (), { m with state := s }, w.emit (Event.send msg)⟩) ∧
    (consumeClient c cmsg = none →
      clientSendMsg c sent cmsg
          = (Outcome.err "Error consuming sent message", c, sent)) ∧
    (∀ s, consumeClient c cmsg = some s →
      clientSendMsg c sent cmsg = (Outcome.ok (), s, sent ++ [cmsg])) := by
  refine ⟨?_, ?_, ?_, ?_⟩
  · intro h
    simp [sendMsg, h]
  · intro s h
    simp [sendMsg, h]
  · intro h
    simp [clientSendMsg, h]
  · intro s h
    simp [clientSendMsg, h]

/-- C8: on a `Magic::Stop(code, _)` stop the module reads the stopping
processor's `rsi` register, sends
`Stopped(Magic(Stop(code, Some rsi), processor))`, and immediately
performs the reset/run cycle for the next iteration. -/
theorem claim_C8_magic_stop_enriched (m : Module) (w : World)
    (input : List Nat) (rest : List ClientMessage) (pn : Int) (code : Nat)
    (x : Option Nat)
    (hreason : effectiveReason m
        = some (StopReason.Magic (Magic.Stop code x) pn))
    (hstate : m.state = ProtoState.Running)
    (hpn : pn ∈ m.processors) :
    (onSimulationStopped m w
        (ClientMessage.Reset :: ClientMessage.Run input :: rest)).out
        = Outcome.ok () ∧
    (onSimulationStopped m w
        (ClientMessage.Reset :: ClientMessage.Run input :: rest)).world.trace
        = w.trace ++ [Event.detectorOnStopped, Event.tracerOnStopped,
            Event.send (ModuleMessage.Stopped (StopReason.Magic
              (Magic.Stop code (some (w.regs pn "rsi"))) pn)),
            Event.restoreCheckpoint 0, Event.discardFuture,
            Event.detectorOnReady, Event.tracerOnReady,
            Event.send ModuleMessage.Ready,
            Event.writeBytes m.buffer_address (input.take m.buffer_size),
            Event.setReg pn "rdi" (input.take m.buffer_size).length,
            Event.continueSim] := by
  have hred : onSimulationStopped m w
      (ClientMessage.Reset :: ClientMessage.Run input :: rest) =
      resetAndRun { m with state := ProtoState.Stopped }
        (((w.emit Event.detectorOnStopped).emit Event.tracerOnStopped).emit
          (Event.send (ModuleMessage.Stopped (StopReason.Magic
            (Magic.Stop code (some (w.regs pn "rsi"))) pn))))
        (ClientMessage.Reset :: ClientMessage.Run input :: rest) pn := by
    simp [onSimulationStopped, hreason, sendMsg, consumeModule, hstate, hpn,
      World.emit]
  rw [hred]
  rw [resetAndRun_happy _ _ input rest pn rfl (by simpa using hpn)]
  refine ⟨rfl, ?_⟩
  simp [World.emit, World.write_bytes, World.set_reg_value]

/-- C9: a magic-instruction callback whose parameter does not decode to
a `Magic` value leaves the module (pending stop reason included) and the
world unchanged, requests no simulation stop, and returns success. -/
theorem claim_C9_unknown_magic_ignored (m : Module) (w : World) (pn : Int)
    (parameter : Int) (h : magicTryFrom parameter = none) :
    onMagicInstruction m w pn parameter = (Outcome.ok (), m, w) := by
  simp [onMagicInstruction, h]

/-- C10: with a processor number absent from the registry (which starts
empty with last-start processor `-1` and is populated only by
`on_add_processor`), `reset_and_run` still receives `Reset`, restores the
snapshot, sends `Ready` and receives `Run`, and only then fails at the
processor lookup: memory is untouched and execution is not resumed. -/
theorem claim_C10_missing_processor_fails_late (m : Module) (w : World)
    (input : List Nat) (rest : List ClientMessage) (pn : Int)
    (hstate : m.state = ProtoState.Stopped)
    (hpn : pn ∉ m.processors) :
    (resetAndRun m w (ClientMessage.Reset :: ClientMessage.Run input :: rest)
        pn).out = Outcome.err "No processor number" ∧
    (resetAndRun m w (ClientMessage.Reset :: ClientMessage.Run input :: rest)
        pn).world.trace
        = w.trace ++ [Event.restoreCheckpoint 0, Event.discardFuture,
            Event.detectorOnReady, Event.tracerOnReady,
            Event.send ModuleMessage.Ready] ∧
    (resetAndRun m w (ClientMessage.Reset :: ClientMessage.Run input :: rest)
        pn).world.memory = w.memory ∧
    (Event.continueSim ∈ (resetAndRun m w
        (ClientMessage.Reset :: ClientMessage.Run input :: rest)
        pn).world.trace → Event.continueSim ∈ w.trace) ∧
    initModule.processors = [] ∧
    initModule.last_start_processor_number = -1 ∧
    (∀ m2 pn2, pn2 ∈ (onAddProcessor m2 pn2).processors) := by
  have hred : resetAndRun m w
      (ClientMessage.Reset :: ClientMessage.Run input :: rest) pn =
      ⟨Outcome.err "No processor number",
        { m with state := ProtoState.Running },
        ((((w.emit (Event.restoreCheckpoint 0)).emit
          Event.discardFuture).emit Event.detectorOnReady).emit
          Event.tracerOnReady).emit (Event.send ModuleMessage.Ready),
        rest⟩ := by
    simp [resetAndRun, recvMsg, sendMsg, consumeClient, consumeModule, hstate,
      hpn]
  rw [hred]
  refine ⟨rfl, ?_, rfl, ?_, rfl, rfl, ?_⟩
  · simp [World.emit]
  · intro hmem
    simp [World.emit] at hmem
    exact hmem
  · intro m2 pn2
    by_cases h : pn2 ∈ m2.processors
    · simp [onAddProcessor, h]
    · simp [onAddProcessor, h]

/-- Witness for C1 at buffer size 64 and a 128-byte input. -/
theorem claim_C1_witness :
    (resetAndRun moduleReadyToReset testWorld
        (ClientMessage.Reset :: ClientMessage.Run bigInput :: []) 0).out
        = Outcome.ok () ∧
    (resetAndRun moduleReadyToReset testWorld
        (ClientMessage.Reset :: ClientMessage.Run bigInput :: []) 0).world.memory
        (moduleReadyToReset.buffer_address + 63) = bigInput.getD 63 0 ∧
    (resetAndRun moduleReadyToReset testWorld
        (ClientMessage.Reset :: ClientMessage.Run bigInput :: []) 0).world.memory
        (moduleReadyToReset.buffer_address + 64)
        = testWorld.memory (moduleReadyToReset.buffer_address + 64) ∧
    (resetAndRun moduleReadyToReset testWorld
        (ClientMessage.Reset :: ClientMessage.Run bigInput :: []) 0).world.regs
        0 "rdi" = min bigInput.length moduleReadyToReset.buffer_size := by
  obtain ⟨h1, h2, h3, h4, h5, h6⟩ := claim_C1_run_truncates moduleReadyToReset
    testWorld bigInput [] 0 rfl (by decide)
  exact ⟨h1, h2 63 (by decide), h5 64 (by decide), h6⟩

/-- Witness for C2 at a first and a later `Magic::Start`. -/
theorem claim_C2_witness :
    (countSaves (onSimulationStopped moduleFirstStart testWorld []).world.trace
        = countSaves testWorld.trace + 1 ∧
      (onSimulationStopped moduleFirstStart testWorld []).module.iterations
        = 1 ∧
      (onSimulationStopped moduleFirstStart testWorld []).module.buffer_address
        = testWorld.regs 0 "rsi" ∧
      (onSimulationStopped moduleFirstStart testWorld []).module.buffer_size
        = testWorld.regs 0 "rdi") ∧
    (countSaves (onSimulationStopped moduleLaterStart testWorld []).world.trace
        = countSaves testWorld.trace ∧
      (onSimulationStopped moduleLaterStart testWorld []).world.trace
        = testWorld.trace ++ [Event.detectorOnStopped, Event.tracerOnStopped,
            Event.detectorOnRun, Event.tracerOnRun, Event.continueSim] ∧
      (onSimulationStopped moduleLaterStart testWorld []).out
        = Outcome.ok () ∧
      (onSimulationStopped moduleLaterStart testWorld []).module.iterations
        = moduleLaterStart.iterations + 1) :=
  ⟨(claim_C2_first_start_snapshots moduleFirstStart testWorld [] 0 1 rfl).1
      rfl (by decide),
   (claim_C2_first_start_snapshots moduleLaterStart testWorld [] 0 1 rfl).2
      (by decide)⟩

/-- Witness for C3 at concrete detector/local/absent reasons. -/
theorem claim_C3_witness :
    effectiveReason moduleDetectorCrash = some (StopReason.Crash 13 0) ∧
    effectiveReason moduleTimedOut = moduleTimedOut.stop_reason ∧
    ((onSimulationStopped moduleNoReason testWorld []).out
        = Outcome.err "Stopped without a reason - this should be impossible" ∧
      (onSimulationStopped moduleNoReason testWorld []).module
        = moduleNoReason ∧
      (onSimulationStopped moduleNoReason testWorld []).world = testWorld ∧
      (onSimulationStopped moduleNoReason testWorld []).queue = []) :=
  ⟨(claim_C3_stop_reason_resolution moduleDetectorCrash testWorld []
      (StopReason.Crash 13 0)).1 rfl,
   (claim_C3_stop_reason_resolution moduleTimedOut testWorld []
      (StopReason.Crash 13 0)).2.1 rfl,
   (claim_C3_stop_reason_resolution moduleNoReason testWorld []
      (StopReason.Crash 13 0)).2.2 rfl rfl⟩

/-- Witness for C4 at a concrete timed-out module. -/
theorem claim_C4_witness :
    (onSimulationStopped moduleTimedOut testWorld
        (ClientMessage.Reset :: ClientMessage.Run bigInput :: [])).out
        = Outcome.ok () ∧
    (onSimulationStopped moduleTimedOut testWorld
        (ClientMessage.Reset :: ClientMessage.Run bigInput :: [])).world.trace
        = testWorld.trace ++ [Event.detectorOnStopped, Event.tracerOnStopped,
            Event.send (ModuleMessage.Stopped StopReason.TimeOut),
            Event.restoreCheckpoint 0, Event.discardFuture,
            Event.detectorOnReady, Event.tracerOnReady,
            Event.send ModuleMessage.Ready,
            Event.writeBytes moduleTimedOut.buffer_address
              (bigInput.take moduleTimedOut.buffer_size),
            Event.setReg 0 "rdi"
              (bigInput.take moduleTimedOut.buffer_size).length,
            Event.continueSim] ∧
    countRestores (onSimulationStopped moduleTimedOut testWorld
        (ClientMessage.Reset :: ClientMessage.Run bigInput :: [])).world.trace
        = countRestores testWorld.trace + 1 :=
  claim_C4_timeout_reported_then_reset moduleTimedOut testWorld bigInput [] 0
    rfl rfl rfl (by decide)

/-- Witness for C5 at a concrete errored module. -/
theorem claim_C5_witness :
    (onSimulationStopped moduleErrored testWorld []).out
        = Outcome.exited 1 ∧
    (onSimulationStopped moduleErrored testWorld []).world.trace
        = testWorld.trace ++ [Event.detectorOnStopped, Event.tracerOnStopped,
            Event.detectorOnExit, Event.tracerOnExit, Event.quit 1] ∧
    countRestores (onSimulationStopped moduleErrored testWorld []).world.trace
        = countRestores testWorld.trace := by
  obtain ⟨h1, h2, h3, h4, h5⟩ := claim_C5_error_teardown_exit moduleErrored
    testWorld [] 7 0 rfl
  exact ⟨h1, h2, h5⟩

/-- Witness for C7 at accepted and rejected sends on both sides. -/
theorem claim_C7_witness :
    ((sendMsg moduleReadyToReset testWorld ModuleMessage.Ready).out
        = Outcome.err "Error consuming sent message" ∧
      (sendMsg moduleReadyToReset testWorld ModuleMessage.Ready).world
        = testWorld ∧
      (sendMsg moduleReadyToReset testWorld ModuleMessage.Ready).module
        = moduleReadyToReset) ∧
    sendMsg moduleTimedOut testWorld
        (ModuleMessage.Stopped StopReason.TimeOut)
        = ⟨Outcome.ok (), { moduleTimedOut with state := ProtoState.Stopped },
            testWorld.emit (Event.send
              (ModuleMessage.Stopped StopReason.TimeOut))⟩ ∧
    clientSendMsg ProtoState.Uninitialized [] ClientMessage.Reset
        = (Outcome.err "Error consuming sent message",
            ProtoState.Uninitialized, []) ∧
    clientSendMsg ProtoState.Ready [] (ClientMessage.Run bigInput)
        = (Outcome.ok (), ProtoState.Running, [ClientMessage.Run bigInput]) :=
  ⟨(claim_C7_send_gated_by_state_machine moduleReadyToReset testWorld
      ModuleMessage.Ready ProtoState.Uninitialized [] ClientMessage.Reset).1
      rfl,
   (claim_C7_send_gated_by_state_machine moduleTimedOut testWorld
      (ModuleMessage.Stopped StopReason.TimeOut) ProtoState.Uninitialized []
      ClientMessage.Reset).2.1 ProtoState.Stopped rfl,
   (claim_C7_send_gated_by_state_machine moduleReadyToReset testWorld
      ModuleMessage.Ready ProtoState.Uninitialized [] ClientMessage.Reset).2.2.1
      rfl,
   (claim_C7_send_gated_by_state_machine moduleReadyToReset testWorld
      ModuleMessage.Ready ProtoState.Ready []
      (ClientMessage.Run bigInput)).2.2.2 ProtoState.Running rfl⟩

/-- Witness for C8 at a concrete `Magic::Stop` module. -/
theorem claim_C8_witness :
    (onSimulationStopped moduleMagicStop testWorld
        (ClientMessage.Reset :: ClientMessage.Run bigInput :: [])).out
        = Outcome.ok () ∧
    (onSimulationStopped moduleMagicStop testWorld
        (ClientMessage.Reset :: ClientMessage.Run bigInput :: [])).world.trace
        = testWorld.trace ++ [Event.detectorOnStopped, Event.tracerOnStopped,
            Event.send (ModuleMessage.Stopped (StopReason.Magic
              (Magic.Stop 4 (some (testWorld.regs 0 "rsi"))) 0)),
            Event.restoreCheckpoint 0, Event.discardFuture,
            Event.detectorOnReady, Event.tracerOnReady,
            Event.send ModuleMessage.Ready,
            Event.writeBytes moduleMagicStop.buffer_address
              (bigInput.take moduleMagicStop.buffer_size),
            Event.setReg 0 "rdi"
              (bigInput.take moduleMagicStop.buffer_size).length,
            Event.continueSim] :=
  claim_C8_magic_stop_enriched moduleMagicStop testWorld bigInput [] 0 4 none
    rfl rfl (by decide)

/-- Witness for C9 at the unrecognized magic code 99. -/
theorem claim_C9_witness :
    magicTryFrom 99 = none ∧
    onMagicInstruction moduleReadyToReset testWorld 0 99
        = (Outcome.ok (), moduleReadyToReset, testWorld) :=
  ⟨rfl, claim_C9_unknown_magic_ignored moduleReadyToReset testWorld 0 99 rfl⟩

/-- Witness for C10 at an empty processor registry. -/
theorem claim_C10_witness :
    (resetAndRun moduleNoProcessors testWorld
        (ClientMessage.Reset :: ClientMessage.Run bigInput :: []) 0).out
        = Outcome.err "No processor number" ∧
    (resetAndRun moduleNoProcessors testWorld
        (ClientMessage.Reset :: ClientMessage.Run bigInput :: []) 0).world.trace
        = testWorld.trace ++ [Event.restoreCheckpoint 0, Event.discardFuture,
            Event.detectorOnReady, Event.tracerOnReady,
            Event.send ModuleMessage.Ready] ∧
    (resetAndRun moduleNoProcessors testWorld
        (ClientMessage.Reset :: ClientMessage.Run bigInput :: []) 0).world.memory
        = testWorld.memory ∧
    initModule.processors = [] ∧
    initModule.last_start_processor_number = -1 := by
  obtain ⟨h1, h2, h3, h4, h5, h6, h7⟩ :=
    claim_C10_missing_processor_fails_late moduleNoProcessors testWorld
      bigInput [] 0 rfl (by decide)
  exact ⟨h1, h2, h3, h5, h6⟩

end Tsffs
